import Mathlib

/-!
Shallow embedding of `src/cluster.py` (labsyspharm/mcmicro-fastPG).

The script's decision logic is embedded as executable Lean functions:
  * a small regular-expression engine (Brzozowski derivatives) modelling the
    Python `re.match` semantics used by `clean` — the constructs used by
    `FEATURES_TO_REMOVE` are literal characters, `.` (any character other
    than a newline), `\d` (a decimal digit; modelled as an ASCII digit,
    which covers every pattern and column name in play), `{n}` and `*`;
    `re.match` anchors at the start of the string and accepts as soon as
    some prefix of the string matches the pattern;
  * the column-cleaning logic of `clean` (marker-list normalization,
    inclusion-mode selection via pandas `data[markers]`, exclusion-mode
    drop via the pattern denylist);
  * the transform-mode resolution of `__main__` together with `readConfig`;
  * the external-process contract of `runFastPG` / `subprocess.check_output`.

Tables are represented by their header (the list of column names): `clean`
only selects or drops whole columns, never touching cell values, so every
claim in scope is a statement about the header.
-/

set_option maxHeartbeats 1000000

namespace McmicroFastPG

/-! ## A regular-expression engine sufficient for `FEATURES_TO_REMOVE` -/

/-- Abstract syntax of the regular expressions appearing in
`FEATURES_TO_REMOVE` (src/cluster.py lines 82-89): character literals,
`.`, `\d`, concatenation, alternation (needed to close derivatives),
Kleene star, and exact repetition `{n}`. -/
inductive Regex where
  | emp : Regex
  | eps : Regex
  | char : Char → Regex
  | dot : Regex
  | digit : Regex
  | alt : Regex → Regex → Regex
  | seq : Regex → Regex → Regex
  | star : Regex → Regex
  | repExact : Regex → Nat → Regex
deriving Repr, DecidableEq

/-- Does the regex accept the empty string? -/
def nullable : Regex → Bool
  | .emp => false
  | .eps => true
  | .char _ => false
  | .dot => false
  | .digit => false
  | .alt r s => nullable r || nullable s
  | .seq r s => nullable r && nullable s
  | .star _ => true
  | .repExact r n => n == 0 || nullable r

/-- Brzozowski derivative of a regex with respect to one character.
`.dot` models Python `.` without `re.DOTALL`: any character except a
newline.  `.digit` models `\d` restricted to ASCII digits. -/
def deriv : Regex → Char → Regex
  | .emp, _ => .emp
  | .eps, _ => .emp
  | .char c, a => if a = c then .eps else .emp
  | .dot, a => if a = '\n' then .emp else .eps
  | .digit, a => if a.isDigit then .eps else .emp
  | .alt r s, a => .alt (deriv r a) (deriv s a)
  | .seq r s, a =>
      if nullable r then .alt (.seq (deriv r a) s) (deriv s a)
      else .seq (deriv r a) s
  | .star r, a => .seq (deriv r a) (.star r)
  | .repExact _ 0, _ => .emp
  | .repExact r (n + 1), a => .seq (deriv r a) (.repExact r n)

/-- The regex accepts exactly this character list. -/
def accepts : Regex → List Char → Bool
  | r, [] => nullable r
  | r, c :: cs => accepts (deriv r c) cs

/-- Python `re.match(pattern, s)` semantics: the pattern is anchored at the
start of `s` and succeeds when it accepts some (possibly empty, possibly
improper) prefix of `s`. -/
def reMatch (r : Regex) (s : String) : Bool :=
  (List.range (s.toList.length + 1)).any fun n => accepts r (s.toList.take n)

/-- Concatenation of character literals: the regex of a literal string. -/
def strLit (s : String) : Regex :=
  s.toList.foldr (fun c r => .seq (.char c) r) .eps

/-- The `.*` suffix used by the prefix-style patterns. -/
def dotStar : Regex := .star .dot

/-- The `AF.*` autofluorescence pattern (src/cluster.py line 88). -/
def afPattern : Regex := Regex.seq (strLit ("AF")) dotStar

/-- The secondary-antibody pattern `A\d{3}.*` (src/cluster.py line 89):
the letter `A`, exactly three digits, then anything. -/
def antibodyPattern : Regex :=
  Regex.seq (Regex.char 'A') (Regex.seq (Regex.repExact Regex.digit 3) dotStar)

/-- The default denylist `FEATURES_TO_REMOVE` of `clean`
(src/cluster.py lines 82-89), in source order. -/
def FEATURES_TO_REMOVE : List Regex :=
  [ strLit ("X_centroid"), strLit ("Y_centroid"),
    strLit ("column_centroid"), strLit ("row_centroid"),
    strLit ("Area"), strLit ("MajorAxisLength"),
    strLit ("MinorAxisLength"), strLit ("Eccentricity"),
    strLit ("Solidity"), strLit ("Extent"), strLit ("Orientation"),
    Regex.seq (strLit ("DNA")) dotStar,
    Regex.seq (strLit ("Hoechst")) dotStar,
    Regex.seq (strLit ("DAP")) dotStar,
    afPattern,
    antibodyPattern ]

/-! ## Python string primitives used by `readConfig` -/

/-- The whitespace characters removed by Python `str.strip()` (the ASCII
ones; the config files in play contain no exotic Unicode spacing). -/
def isPySpace (c : Char) : Bool :=
  c = ' ' || c = '\t' || c = '\n' || c = '\r' || c = '\x0b' || c = '\x0c'

/-- Python `str.strip()`: drop leading and trailing whitespace. -/
def pyStrip (s : String) : String :=
  ⟨((s.toList.dropWhile isPySpace).reverse.dropWhile isPySpace).reverse⟩

/-- Python `str.split(sep)` for a one-character separator: split at every
occurrence, keeping empty fields.  The result is never empty. -/
def splitChar (sep : Char) : List Char → List (List Char)
  | [] => [[]]
  | c :: rest =>
      let r := splitChar sep rest
      if c = sep then [] :: r
      else (c :: r.headD []) :: r.tail

/-- Python substring containment `pat in s` on character lists. -/
def hasSubstr (pat : List Char) : List Char → Bool
  | [] => pat.isEmpty
  | c :: rest => pat.isPrefixOf (c :: rest) || hasSubstr pat rest

/-! ## `clean` (src/cluster.py lines 77-120) -/

/-- The identity-column constant `CELL_ID` (src/cluster.py line 191). -/
def CELL_ID : String := "CellID"

/-- Marker-list normalization (src/cluster.py lines 99-102): if `CellID` is
missing it is inserted at position 0; if present at a nonzero first index
it is popped from there and re-inserted at position 0 (`pop` at the first
index of `CellID` is `List.erase`, and the popped element is `CellID`
itself). -/
def normalizeMarkers (ms : List String) : List String :=
  if CELL_ID ∈ ms then
    if ms.indexOf CELL_ID ≠ 0 then CELL_ID :: ms.erase CELL_ID else ms
  else CELL_ID :: ms

/-- The failure modes of one run, named for the Python exception that
realizes each: `missingColumn` is the pandas `KeyError` raised by
`data[markers]`; `configUnreadable` is the `IOError` from `open(config)`;
`configMissingKey` is the `UnboundLocalError` raised by `readConfig` when
no line contains `transform:`; `externalProcess` is the
`CalledProcessError` / `FileNotFoundError` from `subprocess.check_output`. -/
inductive RunError where
  | missingColumn : RunError
  | configUnreadable : RunError
  | configMissingKey : RunError
  | externalProcess : RunError
deriving Repr, DecidableEq

/-- The `col_to_remove` list of `clean` (src/cluster.py lines 107-111):
for each denylist pattern in order, extend the accumulator with every
column whose start matches the pattern. -/
def colToRemove (cols : List String) : List String :=
  FEATURES_TO_REMOVE.foldl (fun acc r => acc ++ cols.filter (fun c => reMatch r c)) []

/-- Exclusion-mode cleaning (src/cluster.py line 114):
`data.drop(columns=col_to_remove)` keeps, in their original order, exactly
the columns whose names are not in `col_to_remove`. -/
def cleanExcl (cols : List String) : List String :=
  cols.filter fun c => !(colToRemove cols).contains c

/-- The column selection performed by `clean` (src/cluster.py lines
98-114) on a table with header `cols`.  `markers = some ms` is inclusion
mode (`args.markers` given): the list is normalized and `data = data[markers]`
selects exactly the listed columns, in the list's own order — pandas
label-list indexing returns the columns in the order of the list, and
raises `KeyError` when any label is absent.  `markers = none` is exclusion
mode: the denylist columns are dropped. -/
def cleanCols (cols : List String) (markers : Option (List String)) :
    Except RunError (List String) :=
  match markers with
  | some ms =>
      if (normalizeMarkers ms).all (fun x => cols.contains x) then
        Except.ok (normalizeMarkers ms)
      else Except.error RunError.missingColumn
  | none => Except.ok (cleanExcl cols)

/-! ## Transform-mode resolution (src/cluster.py lines 150-159, 181-188) -/

/-- One line of `readConfig` (src/cluster.py line 156): does the stripped
line contain the literal substring `transform:`? -/
def hasTransformKey (l : String) : Bool :=
  hasSubstr (("transform:").toList) (pyStrip l).toList

/-- `l.split(':')[-1].strip()` (src/cluster.py line 157): the text after
the line's last colon, stripped. -/
def lastColonField (l : String) : String :=
  pyStrip ⟨(splitChar ':' l.toList).getLastD []⟩

/-- `readConfig` (src/cluster.py lines 150-159) on the file's lines: the
loop overwrites `transform` at every line containing `transform:`, so the
last such line wins; `none` models the `UnboundLocalError` raised by
`return transform` when no line matched. -/
def readConfig (lines : List String) : Option String :=
  lines.foldl (fun acc l => if hasTransformKey l then some (lastColonField l) else acc) none

/-- A config-file argument: either the path is unreadable (`open` raises
`IOError`) or it reads as a list of lines. -/
inductive ConfigSource where
  | unreadable : ConfigSource
  | readable : List String → ConfigSource

/-- The transform-mode cascade of `__main__` (src/cluster.py lines
181-188): force-without-no gives `true`; no-without-force gives `false`;
otherwise a supplied config file is consulted via `readConfig`; otherwise
`auto`. -/
def resolveTransform (forceT noT : Bool) (config : Option ConfigSource) :
    Except RunError String :=
  if forceT && !noT then Except.ok ("true")
  else if !forceT && noT then Except.ok ("false")
  else
    match config with
    | some ConfigSource.unreadable => Except.error RunError.configUnreadable
    | some (ConfigSource.readable ls) =>
        match readConfig ls with
        | some t => Except.ok t
        | none => Except.error RunError.configMissingKey
    | none => Except.ok ("auto")

/-! ## `runFastPG` (src/cluster.py lines 126-144) -/

/-- The observable outcome of spawning the external `Rscript` process:
the binary may be missing (`FileNotFoundError`), or the process exits
with a code and a captured standard output. -/
inductive ProcOutcome where
  | notFound : ProcOutcome
  | exited : Nat → String → ProcOutcome

/-- `subprocess.check_output` (src/cluster.py line 140): on exit code 0
the captured standard output is returned as a string; a missing binary or
a non-zero exit raises. -/
def check_output : ProcOutcome → Except RunError String
  | ProcOutcome.notFound => Except.error RunError.externalProcess
  | ProcOutcome.exited 0 out => Except.ok out
  | ProcOutcome.exited (_ + 1) _ => Except.error RunError.externalProcess

/-- `runFastPG` (src/cluster.py lines 126-144): the external process is
invoked and its raw standard output is bound to `modularity`.  No parsing
of that string ever happens in the source (it is only printed under
`--verbose`), so the observable result is the raw string on success. -/
def runFastPG (proc : ProcOutcome) : Except RunError String :=
  check_output proc

/-! ## Definitions following the spec's words (for comparison only) -/

/-- Modelled from the spec: the spec's reading of `readConfig` — the value
following the *first* line containing the key token `transform:`, trimmed.
The source takes the last such line; this definition exists only to be
compared against `readConfig`. -/
def readConfigSpecFirst (lines : List String) : Option String :=
  (lines.find? hasTransformKey).map lastColonField

/-- Modelled from the spec: a recognizer for "standard output parseable as
a number" (an optional sign, then digits with at most one decimal point).
The source performs no such parse; this definition exists only to exhibit
an unparseable output on which `runFastPG` nevertheless succeeds. -/
def isParseableNumber (s : String) : Bool :=
  let t := (pyStrip s).toList
  let t := match t with
    | '+' :: rest => rest
    | '-' :: rest => rest
    | _ => t
  !t.isEmpty && t.all (fun c => c.isDigit || c = '.') &&
    t.any Char.isDigit && (t.filter (fun c => c = '.')).length ≤ 1

deriving instance DecidableEq for Except

/-! ## Helper lemmas -/

/-- `List.contains` unfolded to membership (for `String`). -/
lemma contains_iff (l : List String) (a : String) : l.contains a = true ↔ a ∈ l :=
  List.elem_iff

lemma normalizeMarkers_of_not_mem (ms : List String) (h : CELL_ID ∉ ms) :
    normalizeMarkers ms = CELL_ID :: ms := by
  unfold normalizeMarkers
  rw [if_neg h]

lemma normalizeMarkers_of_mem (ms : List String) (h : CELL_ID ∈ ms) :
    normalizeMarkers ms = CELL_ID :: ms.erase CELL_ID := by
  unfold normalizeMarkers
  rw [if_pos h]
  by_cases h0 : ms.indexOf CELL_ID ≠ 0
  · rw [if_pos h0]
  · rw [if_neg h0]
    push_neg at h0
    cases ms with
    | nil => cases h
    | cons a t =>
        by_cases ha : a = CELL_ID
        · subst ha
          rw [List.erase_cons_head]
        · have hbeq : (a == CELL_ID) = false := by simp [ha]
          rw [List.indexOf_cons, hbeq] at h0
          simp at h0

lemma mem_normalizeMarkers (ms : List String) : CELL_ID ∈ normalizeMarkers ms := by
  by_cases h : CELL_ID ∈ ms
  · rw [normalizeMarkers_of_mem ms h]; exact List.mem_cons_self _ _
  · rw [normalizeMarkers_of_not_mem ms h]; exact List.mem_cons_self _ _

lemma cleanCols_some_ok (cols ms : List String)
    (h : ∀ x ∈ normalizeMarkers ms, x ∈ cols) :
    cleanCols cols (some ms) = Except.ok (normalizeMarkers ms) := by
  have hall : (normalizeMarkers ms).all (fun x => cols.contains x) = true := by
    rw [List.all_eq_true]
    intro x hx
    exact (contains_iff cols x).mpr (h x hx)
  simp only [cleanCols]
  rw [if_pos hall]

lemma cleanCols_some_err (cols ms : List String)
    (h : ∃ x ∈ normalizeMarkers ms, x ∉ cols) :
    cleanCols cols (some ms) = Except.error RunError.missingColumn := by
  obtain ⟨x, hx, hnx⟩ := h
  have hall : ¬ (normalizeMarkers ms).all (fun x => cols.contains x) = true := by
    rw [List.all_eq_true]
    intro hcontra
    exact hnx ((contains_iff cols x).mp (hcontra x hx))
  simp only [cleanCols]
  rw [if_neg hall]

lemma mem_foldl_colRemove (cols : List String) (rs : List Regex) (acc : List String)
    (c : String) :
    c ∈ rs.foldl (fun acc r => acc ++ cols.filter (fun c => reMatch r c)) acc ↔
      c ∈ acc ∨ ∃ r ∈ rs, c ∈ cols ∧ reMatch r c = true := by
  induction rs generalizing acc with
  | nil => simp
  | cons r rs ih =>
      rw [List.foldl_cons, ih]
      simp only [List.mem_append, List.mem_filter, List.exists_mem_cons_iff]
      tauto

lemma mem_colToRemove (cols : List String) (c : String) :
    c ∈ colToRemove cols ↔ c ∈ cols ∧ ∃ r ∈ FEATURES_TO_REMOVE, reMatch r c = true := by
  unfold colToRemove
  rw [mem_foldl_colRemove]
  simp only [List.not_mem_nil, false_or]
  constructor
  · rintro ⟨r, hr, hc, hm⟩
    exact ⟨hc, r, hr, hm⟩
  · rintro ⟨hc, r, hr, hm⟩
    exact ⟨r, hr, hc, hm⟩

lemma mem_cleanExcl (cols : List String) (c : String) :
    c ∈ cleanExcl cols ↔ c ∈ cols ∧ ∀ r ∈ FEATURES_TO_REMOVE, reMatch r c = false := by
  unfold cleanExcl
  rw [List.mem_filter]
  constructor
  · rintro ⟨hc, hb⟩
    refine ⟨hc, fun r hr => ?_⟩
    cases hm : reMatch r c with
    | false => rfl
    | true =>
        exfalso
        have hmem : c ∈ colToRemove cols := (mem_colToRemove cols c).mpr ⟨hc, r, hr, hm⟩
        have : (colToRemove cols).contains c = true := (contains_iff _ c).mpr hmem
        rw [this] at hb
        cases hb
  · rintro ⟨hc, hall⟩
    refine ⟨hc, ?_⟩
    have hnot : c ∉ colToRemove cols := by
      rw [mem_colToRemove]
      rintro ⟨-, r, hr, hm⟩
      rw [hall r hr] at hm
      cases hm
    have : (colToRemove cols).contains c = false := by
      cases hcon : (colToRemove cols).contains c with
      | false => rfl
      | true => exact absurd ((contains_iff _ c).mp hcon) hnot
    rw [this]
    rfl

lemma readConfig_foldl (lines : List String) (acc : Option String) :
    lines.foldl (fun a l => if hasTransformKey l then some (lastColonField l) else a) acc
      = match lines.reverse.find? hasTransformKey with
        | some l => some (lastColonField l)
        | none => acc := by
  induction lines generalizing acc with
  | nil => simp
  | cons l rest ih =>
      rw [List.foldl_cons, ih]
      rw [List.reverse_cons, List.find?_append]
      cases h : rest.reverse.find? hasTransformKey with
      | some l' => simp [Option.or]
      | none =>
          cases hl : hasTransformKey l <;> simp [Option.or, List.find?, hl]

lemma readConfig_eq (lines : List String) :
    readConfig lines = (lines.reverse.find? hasTransformKey).map lastColonField := by
  unfold readConfig
  rw [readConfig_foldl]
  cases h : lines.reverse.find? hasTransformKey <;> simp

lemma readConfig_none (lines : List String)
    (h : ∀ l ∈ lines, hasTransformKey l = false) :
    readConfig lines = none := by
  rw [readConfig_eq]
  have hfind : lines.reverse.find? hasTransformKey = none := by
    rw [List.find?_eq_none]
    intro x hx
    rw [h x (List.mem_reverse.mp hx)]
    exact Bool.false_ne_true
  rw [hfind]
  rfl

/-! ## Claim theorems -/

/-- Claim C1: in exclusion mode, every column retained by `clean` fails to
match every exclusion pattern anchored at the start of its name, every
dropped column matches at least one pattern at its start, unmatched
columns are kept, and exclusion-mode cleaning raises no error. -/
theorem exclusion_mode_denylist (cols : List String) :
    (∀ c ∈ cleanExcl cols, ∀ r ∈ FEATURES_TO_REMOVE, reMatch r c = false) ∧
    (∀ c ∈ cols, c ∉ cleanExcl cols → ∃ r ∈ FEATURES_TO_REMOVE, reMatch r c = true) ∧
    (∀ c ∈ cols, (∀ r ∈ FEATURES_TO_REMOVE, reMatch r c = false) → c ∈ cleanExcl cols) ∧
    cleanCols cols none = Except.ok (cleanExcl cols) := by
  refine ⟨?_, ?_, ?_, rfl⟩
  · intro c hc
    exact ((mem_cleanExcl cols c).mp hc).2
  · intro c hc hnot
    by_contra hne
    refine hnot ((mem_cleanExcl cols c).mpr ⟨hc, fun r hr => ?_⟩)
    cases hm : reMatch r c with
    | false => rfl
    | true => exact absurd ⟨r, hr, hm⟩ hne
  · intro c hc hall
    exact (mem_cleanExcl cols c).mpr ⟨hc, hall⟩

/-- Witness for C1 at a concrete table: `X_centroid` is dropped from
`[CellID, X_centroid, CD3]`, so some start-anchored pattern matches it. -/
theorem exclusion_mode_denylist_witness :
    ∃ r ∈ FEATURES_TO_REMOVE, reMatch r ("X_centroid") = true :=
  (exclusion_mode_denylist (["CellID", "X_centroid", "CD3"])).2.1
    ("X_centroid") (by decide) (by decide)

/-- Claim C2: the transform-mode cascade — force alone gives `true`, no-
transform alone gives `false`, otherwise a supplied config file's value is
used, otherwise (in particular with both flags set and no config) `auto`. -/
theorem transform_precedence (forceT noT : Bool) (config : Option ConfigSource) :
    (forceT = true → noT = false →
      resolveTransform forceT noT config = Except.ok ("true")) ∧
    (forceT = false → noT = true →
      resolveTransform forceT noT config = Except.ok ("false")) ∧
    ((forceT && !noT) = false → (!forceT && noT) = false →
      ∀ ls v, config = some (ConfigSource.readable ls) → readConfig ls = some v →
        resolveTransform forceT noT config = Except.ok v) ∧
    ((forceT && !noT) = false → (!forceT && noT) = false → config = none →
      resolveTransform forceT noT config = Except.ok ("auto")) := by
  refine ⟨?_, ?_, ?_, ?_⟩
  · intro hf hn; subst hf; subst hn; simp [resolveTransform]
  · intro hf hn; subst hf; subst hn; simp [resolveTransform]
  · intro h1 h2 ls v hc hr
    subst hc
    cases forceT <;> cases noT <;> simp_all [resolveTransform]
  · intro h1 h2 hc
    subst hc
    cases forceT <;> cases noT <;> simp_all [resolveTransform]

/-- Witness for C2: both flags set, no config, resolves to `auto`. -/
theorem transform_precedence_witness :
    resolveTransform true true none = Except.ok ("auto") :=
  (transform_precedence true true none).2.2.2 rfl rfl rfl

/-- Claim C3: marker-list normalization — a list without `CellID` gets it
prepended; a list containing `CellID` becomes `CellID` followed by the
remainder in unchanged relative order (the first occurrence is removed, so
the result is `CellID ::` the `erase`); the head is always `CellID` and
the tail is always a sublist (order-preserving subselection) of the input. -/
theorem normalizeMarkers_claim (L : List String) :
    (CELL_ID ∉ L → normalizeMarkers L = CELL_ID :: L) ∧
    (CELL_ID ∈ L → normalizeMarkers L = CELL_ID :: L.erase CELL_ID) ∧
    (normalizeMarkers L).head? = some CELL_ID ∧
    (normalizeMarkers L).tail.Sublist L := by
  refine ⟨normalizeMarkers_of_not_mem L, normalizeMarkers_of_mem L, ?_, ?_⟩
  · by_cases h : CELL_ID ∈ L
    · rw [normalizeMarkers_of_mem L h]; rfl
    · rw [normalizeMarkers_of_not_mem L h]; rfl
  · by_cases h : CELL_ID ∈ L
    · rw [normalizeMarkers_of_mem L h]
      exact List.erase_sublist _ _
    · rw [normalizeMarkers_of_not_mem L h]
      exact List.Sublist.refl L

/-- Witness for C3: `CellID` in the middle moves to the front. -/
theorem normalizeMarkers_claim_witness :
    normalizeMarkers ["CD3", "CellID", "CD8"]
      = CELL_ID :: (["CD3", "CellID", "CD8"].erase CELL_ID) :=
  (normalizeMarkers_claim (["CD3", "CellID", "CD8"])).2.1 (by decide)

/-- Claim C4: the secondary-antibody pattern, start-anchored, rejects
`A48` (two digits), accepts `A488`, `A4885`, `A488x` and `A555`, and does
not match `AF488` — which the separate `AF.*` rule matches instead. -/
theorem antibody_pattern_boundary :
    reMatch antibodyPattern ("A48") = false ∧
    reMatch antibodyPattern ("A488") = true ∧
    reMatch antibodyPattern ("A4885") = true ∧
    reMatch antibodyPattern ("A488x") = true ∧
    reMatch antibodyPattern ("A555") = true ∧
    reMatch antibodyPattern ("AF488") = false ∧
    reMatch afPattern ("AF488") = true := by decide

/-- Claim C5 counterexample: for a config file whose lines are
`[transform: true, transform: false]` the source's `readConfig` loop
overwrites on every match and returns the value of the LAST matching line
(`false`), while the claim's first-matching-line reading yields `true`. -/
theorem readConfig_first_line_counterexample :
    readConfig ["transform: true", "transform: false"] = some ("false") ∧
    readConfigSpecFirst ["transform: true", "transform: false"] = some ("true") ∧
    readConfig ["transform: true", "transform: false"]
      ≠ readConfigSpecFirst ["transform: true", "transform: false"] := by decide

/-- Claim C5 (amended): the resulting mode string is the value following
the LAST line of the file containing the token `transform:` — the text
after that line's final colon, trimmed of surrounding whitespace (and no
value results when no line matches). -/
theorem readConfig_last_line (lines : List String) :
    readConfig lines = (lines.reverse.find? hasTransformKey).map lastColonField :=
  readConfig_eq lines

/-- Claim C6: when neither flag rule fires, an unreadable config path
fails with the config-unreadable error, and a readable config file with no
`transform:` line fails rather than silently defaulting. -/
theorem config_resolution_errors (forceT noT : Bool)
    (h1 : (forceT && !noT) = false) (h2 : (!forceT && noT) = false) :
    resolveTransform forceT noT (some ConfigSource.unreadable)
        = Except.error RunError.configUnreadable ∧
    ∀ ls, (∀ l ∈ ls, hasTransformKey l = false) →
      resolveTransform forceT noT (some (ConfigSource.readable ls))
        = Except.error RunError.configMissingKey := by
  constructor
  · cases forceT <;> cases noT <;> simp_all [resolveTransform]
  · intro ls hls
    have h := readConfig_none ls hls
    cases forceT <;> cases noT <;> simp_all [resolveTransform]

/-- Witness for C6: no flags, unreadable config errors; a config whose
only line is `neighbors: 30` (no transform key) errors. -/
theorem config_resolution_errors_witness :
    resolveTransform false false (some ConfigSource.unreadable)
        = Except.error RunError.configUnreadable ∧
    resolveTransform false false (some (ConfigSource.readable ["neighbors: 30"]))
        = Except.error RunError.configMissingKey :=
  ⟨(config_resolution_errors false false rfl rfl).1,
   (config_resolution_errors false false rfl rfl).2 (["neighbors: 30"]) (by decide)⟩

/-- Claim C7 counterexample: in exclusion mode no identity-column check
exists — the table `[Foo, CD3]`, which lacks `CellID`, cleans without any
error and its output still lacks `CellID`. -/
theorem missing_identity_counterexample :
    cleanCols ["Foo", "CD3"] none = Except.ok (["Foo", "CD3"]) ∧
    CELL_ID ∉ (["Foo", "CD3"] : List String) := by decide

/-- Claim C7 (amended): inclusion mode fails when `CellID` is absent from
the table (the normalized selection always demands it) and any successful
inclusion-mode output contains `CellID`; exclusion mode retains `CellID`
whenever it is present but performs no check — it never fails, even when
the identity column is absent. -/
theorem identity_column_amended (cols ms : List String) :
    (CELL_ID ∉ cols → cleanCols cols (some ms) = Except.error RunError.missingColumn) ∧
    (∀ out, cleanCols cols (some ms) = Except.ok out → CELL_ID ∈ out) ∧
    (CELL_ID ∈ cols → CELL_ID ∈ cleanExcl cols) ∧
    (∃ out, cleanCols cols none = Except.ok out) := by
  refine ⟨?_, ?_, ?_, ⟨cleanExcl cols, rfl⟩⟩
  · intro h
    exact cleanCols_some_err cols ms ⟨CELL_ID, mem_normalizeMarkers ms, h⟩
  · intro out hout
    by_cases hall : (normalizeMarkers ms).all (fun x => cols.contains x) = true
    · simp only [cleanCols] at hout
      rw [if_pos hall] at hout
      cases hout
      exact mem_normalizeMarkers ms
    · simp only [cleanCols] at hout
      rw [if_neg hall] at hout
      cases hout
  · intro h
    rw [mem_cleanExcl]
    refine ⟨h, ?_⟩
    have hdec : FEATURES_TO_REMOVE.all (fun r => !reMatch r CELL_ID) = true := by decide
    intro r hr
    have := List.all_eq_true.mp hdec r hr
    simpa using this

/-- Witness for C7 (amended): `CellID` survives exclusion-mode cleaning of
`[X_centroid, CellID, CD3]`. -/
theorem identity_column_amended_witness :
    CELL_ID ∈ cleanExcl ["X_centroid", "CellID", "CD3"] :=
  (identity_column_amended (["X_centroid", "CellID", "CD3"]) []).2.2.1 (by decide)

/-- Claim C8: inclusion mode selects exactly the normalized marker columns
when all are present in the table, and fails with the missing-column error
when any normalized marker is absent. -/
theorem inclusion_mode_selection (cols L : List String) :
    ((∀ x ∈ normalizeMarkers L, x ∈ cols) →
      cleanCols cols (some L) = Except.ok (normalizeMarkers L)) ∧
    ((∃ x ∈ normalizeMarkers L, x ∉ cols) →
      cleanCols cols (some L) = Except.error RunError.missingColumn) :=
  ⟨cleanCols_some_ok cols L, cleanCols_some_err cols L⟩

/-- Witness for C8: markers `[CD3]` against `[CellID, CD3, CD8]` select
the normalized list. -/
theorem inclusion_mode_selection_witness :
    cleanCols ["CellID", "CD3", "CD8"] (some ["CD3"])
      = Except.ok (normalizeMarkers ["CD3"]) :=
  (inclusion_mode_selection (["CellID", "CD3", "CD8"]) (["CD3"])).1 (by decide)

/-- Claim C9 counterexample: an exit-zero run whose standard output is not
parseable as a number still succeeds, because `runFastPG` never parses the
captured string (it only prints it under `--verbose`). -/
theorem runFastPG_no_parse_counterexample :
    runFastPG (ProcOutcome.exited 0 ("hello")) = Except.ok ("hello") ∧
    isParseableNumber ("hello") = false :=
  ⟨rfl, rfl⟩

/-- Claim C9 (amended): on exit code zero the invocation yields the raw
captured standard output, with no numeric parsing; a missing binary or a
non-zero exit fails with the external-process error. -/
theorem runFastPG_contract (proc : ProcOutcome) :
    (proc = ProcOutcome.notFound →
      runFastPG proc = Except.error RunError.externalProcess) ∧
    (∀ out, proc = ProcOutcome.exited 0 out → runFastPG proc = Except.ok out) ∧
    (∀ n out, proc = ProcOutcome.exited (n + 1) out →
      runFastPG proc = Except.error RunError.externalProcess) := by
  refine ⟨?_, ?_, ?_⟩
  · rintro rfl; rfl
  · rintro out rfl; rfl
  · rintro n out rfl; rfl

/-- Witness for C9 (amended): exit 0 with output `0.83` yields `0.83`. -/
theorem runFastPG_contract_witness :
    runFastPG (ProcOutcome.exited 0 ("0.83")) = Except.ok ("0.83") :=
  (runFastPG_contract (ProcOutcome.exited 0 ("0.83"))).2.1 ("0.83") rfl

/-- Claim C10 (implicit): the inclusion-mode output header is the
normalized marker list itself — identity column first, then the remaining
markers in list order — independent of the source table's column order. -/
theorem inclusion_mode_order (cols cols' L : List String)
    (h : ∀ x ∈ normalizeMarkers L, x ∈ cols)
    (h' : ∀ x ∈ normalizeMarkers L, x ∈ cols') :
    cleanCols cols (some L) = Except.ok (normalizeMarkers L) ∧
    cleanCols cols (some L) = cleanCols cols' (some L) := by
  have e1 := cleanCols_some_ok cols L h
  have e2 := cleanCols_some_ok cols' L h'
  exact ⟨e1, e1.trans e2.symm⟩

/-- Witness for C10: two tables with opposite column orders give the same
inclusion-mode output. -/
theorem inclusion_mode_order_witness :
    cleanCols ["CD8", "CD3", "CellID"] (some ["CD3", "CD8"])
      = cleanCols ["CellID", "CD3", "CD8"] (some ["CD3", "CD8"]) :=
  (inclusion_mode_order (["CD8", "CD3", "CellID"]) (["CellID", "CD3", "CD8"])
    (["CD3", "CD8"]) (by decide) (by decide)).2

end McmicroFastPG
